import Mathlib

/-!
Shallow embedding of the itho parameter-file converter (itho_parser.py):
the Home Assistant MQTT sensor descriptor synthesizer (HAMQTTSensor),
version discovery, catalog-table name resolution, the ordered relational
query used by the catalog loader, and descriptor generation, together
with theorems about their behavior.
-/

namespace Itho

/-- Python truthiness of an optional string: None and the empty string are falsy. -/
def strTruthy : Option String → Bool
  | none => false
  | some s => !(s == "")

/-- Python f-string rendering of an optional string: None renders as the text None. -/
def pyStr : Option String → String
  | none => "None"
  | some s => s

/-- The subset of Home Assistant sensor device classes listed in DEVICE_CLASSES
in the source. -/
inductive SensorDeviceClass where
  | APPARENT_POWER
  | CO2
  | CURRENT
  | DURATION
  | ENERGY
  | HUMIDITY
  | POWER
  | PRESSURE
  | TEMPERATURE
  | VOLUME_FLOW_RATE
  deriving DecidableEq

/-- Home Assistant sensor state classes. -/
inductive SensorStateClass where
  | MEASUREMENT
  | TOTAL
  | TOTAL_INCREASING
  deriving DecidableEq

/-- String value of a device class, as produced by str() on the StrEnum. -/
def strOfDeviceClass : SensorDeviceClass → String
  | .APPARENT_POWER => "apparent_power"
  | .CO2 => "carbon_dioxide"
  | .CURRENT => "current"
  | .DURATION => "duration"
  | .ENERGY => "energy"
  | .HUMIDITY => "humidity"
  | .POWER => "power"
  | .PRESSURE => "pressure"
  | .TEMPERATURE => "temperature"
  | .VOLUME_FLOW_RATE => "volume_flow_rate"

/-- String value of a state class, as produced by str() on the StrEnum. -/
def strOfStateClass : SensorStateClass → String
  | .MEASUREMENT => "measurement"
  | .TOTAL => "total"
  | .TOTAL_INCREASING => "total_increasing"

/-- The DEVICE_CLASSES list of the source, in source order. -/
def DEVICE_CLASSES : List SensorDeviceClass :=
  [.APPARENT_POWER, .CO2, .CURRENT, .DURATION, .ENERGY,
   .HUMIDITY, .POWER, .PRESSURE, .TEMPERATURE, .VOLUME_FLOW_RATE]

/-- Fixed constants of the source module. -/
def DEVICE_ID : String := "itho_432432"

def ROOT_TOPIC : String := "itho_wtw"

def ITHO_STATUS_TOPIC : String := ROOT_TOPIC ++ "/ithostatus"

def AVAILABILITY_TOPIC : String := ROOT_TOPIC ++ "/lwt"

def PAYLOAD_AVAILABLE : String := "online"

def PAYLOAD_NOT_AVAILABLE : String := "offline"

/-- Unit normalization from HAMQTTSensor.__fix_unit. The first component is the
new value of self.unit_of_measurement (the field is mutated in place by the
source), the second is self.fixed_unit_of_measurement (the display unit,
None for the placeholder dash). -/
def fixUnit (u : String) : String × Option String :=
  if u = "M3/h" then ("m3/h", some "m³/h")
  else if u = "m3/h" then ("m3/h", some "m³/h")
  else if u = "m³/h" then ("m3/h", some "m³/h")
  else if u = "uur" then ("hour", some "h")
  else if u = "-" then ("-", none)
  else (u, some u)

/-- Device class inference from HAMQTTSensor.__find_device_class. The injected
reference lookup DEVICE_CLASS_UNITS is a parameter; a unit set may contain
None (modelled as none), matching the upstream type. Zero matches give no
class, one match gives that class, several raise HAMQTTSensorError. -/
def findDeviceClass (units : SensorDeviceClass → List (Option String))
    (fixed : Option String) : Except String (Option SensorDeviceClass) :=
  match DEVICE_CLASSES.filter (fun dc => decide (fixed ∈ units dc)) with
  | [] => .ok none
  | [dc] => .ok (some dc)
  | _ => .error "Multiple device classes found!"

/-- The sensor record built by HAMQTTSensor.__init__. -/
structure HAMQTTSensor where
  name : String
  unique_id : String
  availability_topic : String
  payload_available : String
  payload_not_available : String
  state_topic : String
  value_template : String
  device_class : Option SensorDeviceClass
  state_class : Option SensorStateClass
  unit_of_measurement : Option String
  fixed_unit_of_measurement : Option String
  deriving DecidableEq

/-- Effect of the conditional __fix_unit call in __init__: when the passed
unit is truthy it is normalized, otherwise both fields keep their defaults
(the raw unit and None). First component: unit_of_measurement after __init__;
second: fixed_unit_of_measurement. -/
def applyFixUnit (unit : Option String) : Option String × Option String :=
  if strTruthy unit then
    match unit with
    | some u => (some (fixUnit u).fst, (fixUnit u).snd)
    | none => (unit, none)
  else (unit, none)

/-- The value template f-string of __init__, built from the current (already
normalized) self.unit_of_measurement. -/
def mkValueTemplate (value : String) (uom : Option String) : String :=
  "\x7b\x7b value_json[\"" ++ value ++ " (" ++ pyStr uom ++ ")\"] \x7d\x7d"

/-- HAMQTTSensor.__init__: unit normalization, device class inference (which
may raise, modelled as Except.error), state class derivation and assembly.
The injected lookups DEVICE_CLASS_UNITS and DEVICE_CLASS_STATE_CLASSES are
parameters; the latter is a list in the fixed iteration order the source
observes through list(). -/
def mkSensor (units : SensorDeviceClass → List (Option String))
    (stateCls : SensorDeviceClass → List SensorStateClass)
    (name unique_id availability_topic payload_available payload_not_available
      state_topic value : String)
    (unit : Option String) : Except String HAMQTTSensor :=
  match (if strTruthy unit then findDeviceClass units (applyFixUnit unit).snd else .ok none) with
  | .error e => .error e
  | .ok dc =>
    .ok
      { name := name
        unique_id := unique_id
        availability_topic := availability_topic
        payload_available := payload_available
        payload_not_available := payload_not_available
        state_topic := state_topic
        value_template := mkValueTemplate value (applyFixUnit unit).fst
        device_class := dc
        state_class :=
          match dc with
          | some c => (stateCls c).head?
          | none => none
        unit_of_measurement := (applyFixUnit unit).fst
        fixed_unit_of_measurement := (applyFixUnit unit).snd }

/-- Serializable values appearing in the descriptor mapping. -/
inductive JValue where
  | str : String → JValue
  | arr : List JValue → JValue
  | obj : List (String × JValue) → JValue

/-- HAMQTTSensor.to_dict: the output mapping in insertion order; optional
fields are omitted (not emitted as null) when falsy. -/
def to_dict (s : HAMQTTSensor) : List (String × JValue) :=
  [("name", JValue.str s.name),
   ("unique_id", JValue.str s.unique_id),
   ("state_topic", JValue.str s.state_topic),
   ("value_template", JValue.str s.value_template)]
  ++ (if strTruthy s.fixed_unit_of_measurement then
        [("unit_of_measurement", JValue.str (pyStr s.fixed_unit_of_measurement))]
      else [])
  ++ (match s.device_class with
      | some dc => [("device_class", JValue.str (strOfDeviceClass dc))]
      | none => [])
  ++ (match s.state_class with
      | some sc => [("state_class", JValue.str (strOfStateClass sc))]
      | none => [])
  ++ [("availability", JValue.arr [JValue.obj [("topic", JValue.str s.availability_topic)]]),
      ("payload_available", JValue.str s.payload_available),
      ("payload_not_available", JValue.str s.payload_not_available)]

/-- Typed parameter record (IthoParameter). -/
structure IthoParameter where
  Index : Int
  Volgorde : Int
  Naam : String
  Naam_fabriek : String
  Min : Float
  Max : Float
  Default : Float
  Tekst_NL : String
  Omschrijving_NL : String
  Eenheid_NL : String
  Tekst_GB : String
  Omschrijving_GB : String
  Eenheid_GB : String
  Tekst_D : String
  Omschrijving_D : String
  Eenheid_D : String
  Subtabel : String
  Paswoordnivo : Int

/-- Typed datalabel record (IthoDatalabel). The GB unit may be NULL in the
database, hence an optional string; it is handed to HAMQTTSensor as the raw
unit of measurement. -/
structure IthoDatalabel where
  Index : Int
  Naam : String
  Tekst_NL : String
  Tooltip_NL : String
  Eenheid_NL : String
  Tekst_GB : String
  Tooltip_GB : String
  Eenheid_GB : Option String
  Tekst_D : String
  Tooltip_D : String
  Eenheid_D : String
  SubTabel : String
  Visible : Int

/-- Decision procedure for the regular expression .+V[0-9]\x7b1,2\x7d$ of
find_versions (re.match anchored at the start, dollar at the end, dot not
matching a newline; table names contain no newline): the name ends in a
letter V followed by one or two digits, with at least one character before
that V. -/
def versionMatch (s : String) : Bool :=
  match s.data.reverse with
  | d1 :: 'V' :: _ :: _ => d1.isDigit
  | d1 :: d2 :: 'V' :: _ :: _ => d1.isDigit && d2.isDigit
  | _ => false

/-- Scan helper: chars after the last occurrence of the separator _V, with the
whole input as the default when the separator never occurs. Mirrors
table.split with separator _V, last element. -/
def afterLastAux : List Char → List Char → List Char
  | '_' :: 'V' :: rest, _ => afterLastAux rest rest
  | _ :: rest, acc => afterLastAux rest acc
  | [], acc => acc

/-- Chars of table.split with separator _V, last element. -/
def afterLast_V (s : List Char) : List Char :=
  afterLastAux s s

/-- Numeric value of a digit string. -/
def digitsVal (cs : List Char) : Nat :=
  cs.foldl (fun n c => 10 * n + (c.toNat - 48)) 0

/-- Model of the Python int() conversion on the strings reachable here: it
succeeds exactly on nonempty all-digit strings, and a failure (ValueError)
is modelled as none. -/
def pythonInt (cs : List Char) : Option Nat :=
  if !cs.isEmpty && cs.all Char.isDigit then some (digitsVal cs) else none

/-- Version number extracted from one table name:
int of table.split with separator _V, last element. -/
def tableVersion (t : String) : Option Nat :=
  pythonInt (afterLast_V t.data)

/-- The running-maximum loop of find_versions over candidate tables, starting
from 0; a ValueError anywhere makes the whole call fail. -/
def maxVersion : List String → Option Nat
  | [] => some 0
  | t :: ts =>
    match tableVersion t, maxVersion ts with
    | some v, some m => some (max v m)
    | _, _ => none

/-- IthoParser.find_versions: filter version-tagged tables, take the maximal
integer suffix, and enumerate range(1, max + 1). -/
def find_versions (tables : List String) : Option (List Nat) :=
  match maxVersion (tables.filter versionMatch) with
  | some m => some (List.range' 1 m)
  | none => none

/-- Primary-cased parameter table naming convention. -/
def primaryParamTable (v : Nat) : String :=
  "Parameterlijst_V" ++ toString v

/-- Alternate-cased parameter table naming convention. -/
def altParamTable (v : Nat) : String :=
  "parameterlijst_V" ++ toString v

/-- Datalabel table naming convention (only one casing is checked). -/
def datalabelTable (v : Nat) : String :=
  "Datalabel_V" ++ toString v

/-- One iteration of the name resolution in find_parameters. Note that the
source assigns the primary-cased name in both branches (line 379 assigns
Parameterlijst even when only parameterlijst was found in the table list),
and keeps the previous value of current_table when neither name is present. -/
def resolveParamTable (tables : List String) (v : Nat) (cur : String) : String :=
  if primaryParamTable v ∈ tables then primaryParamTable v
  else if altParamTable v ∈ tables then primaryParamTable v
  else cur

/-- One iteration of the name resolution in find_datalabels: only the
primary-cased convention is checked, otherwise current_table is kept. -/
def resolveDatalabelTable (tables : List String) (v : Nat) (cur : String) : String :=
  if datalabelTable v ∈ tables then datalabelTable v else cur

/-- The sequence of table names queried by the find_parameters loop, one per
version, threading current_table (initially the empty string). -/
def paramQueryTablesAux (tables : List String) (cur : String) : List Nat → List String
  | [] => []
  | v :: vs =>
    let t := resolveParamTable tables v cur
    t :: paramQueryTablesAux tables t vs

/-- Table names queried by find_parameters for a version list. -/
def paramQueryTables (tables : List String) (versions : List Nat) : List String :=
  paramQueryTablesAux tables "" versions

/-- The sequence of table names queried by the find_datalabels loop. -/
def datalabelQueryTablesAux (tables : List String) (cur : String) : List Nat → List String
  | [] => []
  | v :: vs =>
    let t := resolveDatalabelTable tables v cur
    t :: datalabelQueryTablesAux tables t vs

/-- Table names queried by find_datalabels for a version list. -/
def datalabelQueryTables (tables : List String) (versions : List Nat) : List String :=
  datalabelQueryTablesAux tables "" versions

/-- Value of current_table after folding the datalabel resolution over a
version list. -/
def resolveDatalabelFold (tables : List String) (cur : String) (l : List Nat) : String :=
  l.foldl (fun c v => resolveDatalabelTable tables v c) cur

/-- ASCII lower casing of one character, as SQLite applies to identifiers. -/
def asciiLower (c : Char) : Char :=
  if 'A' ≤ c ∧ c ≤ 'Z' then Char.ofNat (c.toNat + 32) else c

/-- ASCII lower casing of a string. -/
def lowerStr (s : String) : String :=
  ⟨s.data.map asciiLower⟩

/-- The ordered select by Index used by the catalog loader, against an
in-memory store of named tables. SQLite matches table identifiers
case-insensitively (ASCII), and ORDER BY Index ASC sorts the rows by the
integer index column; a name matching no table is a query error. -/
def queryOrdered {ρ : Type} (key : ρ → Int) (store : List (String × List ρ))
    (name : String) : Except String (List ρ) :=
  match store.find? (fun p => lowerStr p.fst == lowerStr name) with
  | some p => .ok (p.snd.insertionSort (fun a b => key a ≤ key b))
  | none => .error ("no such table: " ++ name)

/-- The sensor construction loop body of get_ha_sensors, one datalabel at a
time; an HAMQTTSensorError propagates and aborts the whole call. -/
def buildSensors {α β : Type} (f : α → Except String β) : List α → Except String (List β)
  | [] => .ok []
  | x :: xs =>
    match f x with
    | .error e => .error e
    | .ok y =>
      match buildSensors f xs with
      | .error e => .error e
      | .ok ys => .ok (y :: ys)

/-- Construction of one sensor from one datalabel exactly as get_ha_sensors
passes the arguments. -/
def mkSensorOfDatalabel (units : SensorDeviceClass → List (Option String))
    (stateCls : SensorDeviceClass → List SensorStateClass)
    (dl : IthoDatalabel) : Except String HAMQTTSensor :=
  mkSensor units stateCls dl.Tekst_GB (DEVICE_ID ++ "_" ++ dl.Tekst_GB)
    AVAILABILITY_TOPIC PAYLOAD_AVAILABLE PAYLOAD_NOT_AVAILABLE
    ITHO_STATUS_TOPIC dl.Tooltip_GB dl.Eenheid_GB

/-- IthoParser.get_ha_sensors: unknown versions raise IthoParserError with the
requested version in the message, otherwise one sensor is built per datalabel
of that version in loaded order. -/
def get_ha_sensors (units : SensorDeviceClass → List (Option String))
    (stateCls : SensorDeviceClass → List SensorStateClass)
    (versions : List Nat) (datalabels : Nat → List IthoDatalabel)
    (version : Nat) : Except String (List HAMQTTSensor) :=
  if version ∈ versions then
    buildSensors (mkSensorOfDatalabel units stateCls) (datalabels version)
  else .error ("Firmware version: " ++ toString version ++ " not found")

/-! Concrete reference lookups used by witnesses and counterexamples. -/

/-- A reference lookup registering no units at all. -/
def unitsNone : SensorDeviceClass → List (Option String) :=
  fun _ => []

/-- A reference lookup with no recognized state classes. -/
def stateClsNone : SensorDeviceClass → List SensorStateClass :=
  fun _ => []

/-- A small realistic reference lookup for units. -/
def unitsW : SensorDeviceClass → List (Option String)
  | .DURATION => [some "h", some "min", some "s", some "d"]
  | .VOLUME_FLOW_RATE => [some "m³/h", some "ft³/min"]
  | .TEMPERATURE => [some "°C", some "°F", some "K"]
  | _ => []

/-- A small reference lookup for state classes. -/
def stateClsW : SensorDeviceClass → List SensorStateClass
  | .DURATION => [.TOTAL, .TOTAL_INCREASING]
  | _ => [.MEASUREMENT]

/-- A reference lookup registering one synthetic unit under two device
classes, making classification of that unit ambiguous. -/
def unitsAmb : SensorDeviceClass → List (Option String)
  | .POWER => [some "W", some "VA"]
  | .APPARENT_POWER => [some "VA"]
  | _ => []

/-- Field characterization of a successfully constructed sensor. -/
theorem mkSensor_ok_spec (units : SensorDeviceClass → List (Option String))
    (stateCls : SensorDeviceClass → List SensorStateClass)
    (n i a p q st value : String) (unit : Option String) (s : HAMQTTSensor)
    (h : mkSensor units stateCls n i a p q st value unit = .ok s) :
    s.value_template = mkValueTemplate value (applyFixUnit unit).fst ∧
    s.unit_of_measurement = (applyFixUnit unit).fst ∧
    s.fixed_unit_of_measurement = (applyFixUnit unit).snd ∧
    (if strTruthy unit then findDeviceClass units (applyFixUnit unit).snd
      else Except.ok none) = Except.ok s.device_class ∧
    s.state_class = (match s.device_class with
      | some c => (stateCls c).head?
      | none => none) := by
  unfold mkSensor at h
  revert h
  cases hd : (if strTruthy unit then findDeviceClass units (applyFixUnit unit).snd
      else Except.ok none) with
  | error e => intro h; simp at h
  | ok dc =>
    intro h
    injection h with h
    subst h
    exact ⟨rfl, rfl, rfl, rfl, rfl⟩

/-- The sensor produced from raw unit M3/h with the empty lookups. -/
def sensC1 : HAMQTTSensor :=
  { name := "n"
    unique_id := "i"
    availability_topic := "a"
    payload_available := "on"
    payload_not_available := "off"
    state_topic := "st"
    value_template := "\x7b\x7b value_json[\"Supply flow (m3/h)\"] \x7d\x7d"
    device_class := none
    state_class := none
    unit_of_measurement := some "m3/h"
    fixed_unit_of_measurement := some "m³/h" }

/-- Claim C1, counterexample: for the datalabel raw unit M3/h the synthesized
value template is keyed by the normalized unit m3/h, not by the raw unit
string M3/h as the claim states. -/
theorem claim_C1_counterexample :
    mkSensor unitsNone stateClsNone "n" "i" "a" "on" "off" "st" "Supply flow"
        (some "M3/h") = Except.ok sensC1 ∧
    sensC1.value_template ≠ "\x7b\x7b value_json[\"Supply flow (M3/h)\"] \x7d\x7d" ∧
    sensC1.value_template = "\x7b\x7b value_json[\"Supply flow (m3/h)\"] \x7d\x7d" :=
  ⟨rfl, by decide, rfl⟩

/-- Claim C1, amended: the value template is keyed by the original raw label
together with the post-normalization unit_of_measurement (the first component
of fixUnit), because __fix_unit mutates self.unit_of_measurement in place
before the template is built; the key embeds the raw unit string only when
normalization leaves it unchanged. -/
theorem claim_C1_amended (units : SensorDeviceClass → List (Option String))
    (stateCls : SensorDeviceClass → List SensorStateClass)
    (n i a p q st value u : String) (s : HAMQTTSensor)
    (h : mkSensor units stateCls n i a p q st value (some u) = .ok s) :
    s.value_template =
      "\x7b\x7b value_json[\"" ++ value ++ " (" ++ (fixUnit u).fst ++ ")\"] \x7d\x7d" := by
  have hv := (mkSensor_ok_spec units stateCls n i a p q st value (some u) s h).1
  rw [hv]
  unfold mkValueTemplate applyFixUnit
  by_cases hu : u = ""
  · subst hu
    rfl
  · simp only [strTruthy]
    rw [if_pos]
    · rfl
    · simpa using hu

/-- Claim C1, amended, witness at the raw unit M3/h. -/
theorem claim_C1_amended_witness :
    sensC1.value_template =
      "\x7b\x7b value_json[\"" ++ "Supply flow" ++ " (" ++ (fixUnit "M3/h").fst ++ ")\"] \x7d\x7d" :=
  claim_C1_amended unitsNone stateClsNone "n" "i" "a" "on" "off" "st"
    "Supply flow" "M3/h" sensC1 rfl

/-- Claim C3: device class inference returns no class on zero matches,
exactly the matching class on one match, and raises the ambiguous
classification error on two or more matches, which aborts construction of
the whole descriptor; a successful result never carries more than one
class (it is none or the unique filter result). -/
theorem claim_C3 (units : SensorDeviceClass → List (Option String))
    (fu : Option String) :
    (DEVICE_CLASSES.filter (fun dc => decide (fu ∈ units dc)) = [] →
      findDeviceClass units fu = .ok none)
    ∧ (∀ d, DEVICE_CLASSES.filter (fun dc => decide (fu ∈ units dc)) = [d] →
      findDeviceClass units fu = .ok (some d))
    ∧ (2 ≤ (DEVICE_CLASSES.filter (fun dc => decide (fu ∈ units dc))).length →
      findDeviceClass units fu = .error "Multiple device classes found!")
    ∧ (∀ o, findDeviceClass units fu = .ok o →
      o = none ∨ ∃ d, o = some d ∧
        DEVICE_CLASSES.filter (fun dc => decide (fu ∈ units dc)) = [d])
    ∧ (∀ (stateCls : SensorDeviceClass → List SensorStateClass)
        (n i a p q st value u : String), u ≠ "" → (fixUnit u).snd = fu →
      2 ≤ (DEVICE_CLASSES.filter (fun dc => decide (fu ∈ units dc))).length →
      mkSensor units stateCls n i a p q st value (some u) =
        .error "Multiple device classes found!") := by
  have herr : 2 ≤ (DEVICE_CLASSES.filter (fun dc => decide (fu ∈ units dc))).length →
      findDeviceClass units fu = .error "Multiple device classes found!" := by
    intro h2
    unfold findDeviceClass
    cases hfil : DEVICE_CLASSES.filter (fun dc => decide (fu ∈ units dc)) with
    | nil => rw [hfil] at h2; simp at h2
    | cons d tl =>
      cases tl with
      | nil => rw [hfil] at h2; simp at h2
      | cons d2 tl2 => rfl
  refine ⟨?_, ?_, herr, ?_, ?_⟩
  · intro h
    unfold findDeviceClass
    rw [h]
  · intro d h
    unfold findDeviceClass
    rw [h]
  · intro o h
    unfold findDeviceClass at h
    revert h
    cases hfil : DEVICE_CLASSES.filter (fun dc => decide (fu ∈ units dc)) with
    | nil =>
      intro h
      injection h with h
      exact Or.inl h.symm
    | cons d tl =>
      cases tl with
      | nil =>
        intro h
        injection h with h
        exact Or.inr ⟨d, h.symm, rfl⟩
      | cons d2 tl2 => intro h; simp at h
  · intro stateCls n i a p q st value u hu hfu h2
    have ht : strTruthy (some u) = true := by simpa [strTruthy] using hu
    have hsnd : (applyFixUnit (some u)).snd = fu := by
      unfold applyFixUnit
      rw [if_pos ht]
      exact hfu
    unfold mkSensor
    rw [if_pos ht, hsnd, herr h2]

/-- Claim C3, witness: a unit registered under two device classes raises the
ambiguous classification error and aborts the descriptor, one under exactly
one class yields that class, an unregistered one yields none. -/
theorem claim_C3_witness :
    findDeviceClass unitsAmb (some "xyz") = .ok none ∧
    findDeviceClass unitsAmb (some "W") = .ok (some .POWER) ∧
    findDeviceClass unitsAmb (some "VA") = .error "Multiple device classes found!" ∧
    mkSensor unitsAmb stateClsNone "n" "i" "a" "on" "off" "st" "v" (some "VA") =
      .error "Multiple device classes found!" :=
  ⟨(claim_C3 unitsAmb (some "xyz")).1 (by decide),
   (claim_C3 unitsAmb (some "W")).2.1 .POWER (by decide),
   (claim_C3 unitsAmb (some "VA")).2.2.1 (by decide),
   (claim_C3 unitsAmb (some "VA")).2.2.2.2 stateClsNone "n" "i" "a" "on" "off"
     "st" "v" "VA" (by decide) rfl (by decide)⟩

/-- Claim C6: a successfully built descriptor has a state class exactly when
a device class was assigned and that class has a nonempty recognized
state-class list, and the state class is then the first element of that list
in the reference lookup order; with no device class there is never a state
class. -/
theorem claim_C6 (units : SensorDeviceClass → List (Option String))
    (stateCls : SensorDeviceClass → List SensorStateClass)
    (n i a p q st value : String) (unit : Option String) (s : HAMQTTSensor)
    (h : mkSensor units stateCls n i a p q st value unit = .ok s) :
    (s.device_class = none → s.state_class = none) ∧
    (∀ c, s.state_class = some c ↔
      ∃ dc, s.device_class = some dc ∧ (stateCls dc).head? = some c) := by
  have hs := (mkSensor_ok_spec units stateCls n i a p q st value unit s h).2.2.2.2
  constructor
  · intro hdc
    rw [hs, hdc]
  · intro c
    rw [hs]
    cases hdc : s.device_class with
    | none => simp
    | some dc => simp

/-- The sensor produced from the Dutch hours unit with the small lookups. -/
def sensC6 : HAMQTTSensor :=
  { name := "n"
    unique_id := "i"
    availability_topic := "a"
    payload_available := "on"
    payload_not_available := "off"
    state_topic := "st"
    value_template := "\x7b\x7b value_json[\"runtime (hour)\"] \x7d\x7d"
    device_class := some .DURATION
    state_class := some .TOTAL
    unit_of_measurement := some "hour"
    fixed_unit_of_measurement := some "h" }

/-- Claim C6, witness: raw unit uur maps to the duration class, whose first
recognized state class in lookup order is picked. -/
theorem claim_C6_witness :
    (sensC6.device_class = none → sensC6.state_class = none) ∧
    (∀ c, sensC6.state_class = some c ↔
      ∃ dc, sensC6.device_class = some dc ∧ (stateClsW dc).head? = some c) :=
  claim_C6 unitsW stateClsW "n" "i" "a" "on" "off" "st" "runtime" (some "uur")
    sensC6 rfl

/-- The descriptor built from a datalabel whose raw unit is the placeholder
dash, for any reference lookup registering no unitless class. -/
def sensorDash (n i a p q st value : String) : HAMQTTSensor :=
  { name := n
    unique_id := i
    availability_topic := a
    payload_available := p
    payload_not_available := q
    state_topic := st
    value_template := mkValueTemplate value (some "-")
    device_class := none
    state_class := none
    unit_of_measurement := some "-"
    fixed_unit_of_measurement := none }

/-- Claim C8: for the placeholder raw unit dash, synthesis succeeds (provided
the injected lookup, like the real one for the ten selected classes,
registers no class for the missing-unit marker) and the output mapping has
exactly the keys name, unique_id, state_topic, value_template, availability,
payload_available and payload_not_available: no unit_of_measurement key at
all, and hence no device_class or state_class keys. -/
theorem claim_C8 (units : SensorDeviceClass → List (Option String))
    (stateCls : SensorDeviceClass → List SensorStateClass)
    (n i a p q st value : String)
    (h : ∀ dc, (none : Option String) ∉ units dc) :
    mkSensor units stateCls n i a p q st value (some "-") =
      .ok (sensorDash n i a p q st value) ∧
    (to_dict (sensorDash n i a p q st value)).map Prod.fst =
      ["name", "unique_id", "state_topic", "value_template",
       "availability", "payload_available", "payload_not_available"] := by
  have hfil : DEVICE_CLASSES.filter
      (fun dc => decide ((none : Option String) ∈ units dc)) = [] := by
    simp only [List.filter_eq_nil_iff]
    intro dc _
    simp [h dc]
  have hd : findDeviceClass units none = .ok none := by
    unfold findDeviceClass
    rw [hfil]
  constructor
  · unfold mkSensor
    have hscrut : (if strTruthy (some "-") then
        findDeviceClass units (applyFixUnit (some "-")).snd
        else Except.ok none) = Except.ok none := by
      rw [if_pos (by decide)]
      exact hd
    rw [hscrut]
    rfl
  · rfl

/-- Claim C8, witness with the small realistic lookup. -/
theorem claim_C8_witness :
    mkSensor unitsW stateClsW "n" "i" "a" "on" "off" "st" "v" (some "-") =
      .ok (sensorDash "n" "i" "a" "on" "off" "st" "v") ∧
    (to_dict (sensorDash "n" "i" "a" "on" "off" "st" "v")).map Prod.fst =
      ["name", "unique_id", "state_topic", "value_template",
       "availability", "payload_available", "payload_not_available"] :=
  claim_C8 unitsW stateClsW "n" "i" "a" "on" "off" "st" "v"
    (by intro dc; cases dc <;> decide)

/-- A datalabel table name is never the empty string (the unresolved marker). -/
theorem datalabelTable_ne_empty (v : Nat) : datalabelTable v ≠ "" := by
  intro h
  have hl := congrArg String.length h
  rw [datalabelTable, String.length_append] at hl
  have h11 : "Datalabel_V".length = 11 := rfl
  rw [h11] at hl
  simp at hl

/-- Folding the datalabel resolution leaves the empty marker exactly when it
started empty and no version in the list has its table present. -/
theorem resolveDatalabelFold_eq_empty (tables : List String) :
    ∀ (l : List Nat) (cur : String),
      resolveDatalabelFold tables cur l = "" ↔
        (cur = "" ∧ ∀ v ∈ l, datalabelTable v ∉ tables) := by
  intro l
  induction l with
  | nil =>
    intro cur
    simp [resolveDatalabelFold]
  | cons v vs ih =>
    intro cur
    have hstep : resolveDatalabelFold tables cur (v :: vs) =
        resolveDatalabelFold tables (resolveDatalabelTable tables v cur) vs := rfl
    rw [hstep, ih]
    unfold resolveDatalabelTable
    by_cases hv : datalabelTable v ∈ tables
    · rw [if_pos hv]
      constructor
      · rintro ⟨h1, _⟩
        exact absurd h1 (datalabelTable_ne_empty v)
      · rintro ⟨_, h2⟩
        exact absurd hv (h2 v (by simp))
    · rw [if_neg hv]
      constructor
      · rintro ⟨h1, h2⟩
        refine ⟨h1, ?_⟩
        intro w hw
        rcases List.mem_cons.mp hw with h | h
        · subst h; exact hv
        · exact h2 w h
      · rintro ⟨h1, h2⟩
        exact ⟨h1, fun w hw => h2 w (List.mem_cons_of_mem v hw)⟩

/-- The table queried by the i-th iteration of find_datalabels is the fold of
the resolution over the first i + 1 versions. -/
theorem datalabelQueryTablesAux_getD (tables : List String) :
    ∀ (l : List Nat) (cur : String) (i : Nat), i < l.length →
      (datalabelQueryTablesAux tables cur l).getD i "?" =
        resolveDatalabelFold tables cur (l.take (i + 1)) := by
  intro l
  induction l with
  | nil =>
    intro cur i h
    simp at h
  | cons v vs ih =>
    intro cur i h
    cases i with
    | zero => simp [datalabelQueryTablesAux, resolveDatalabelFold]
    | succ j =>
      have hj : j < vs.length := by simpa using h
      simpa [datalabelQueryTablesAux, resolveDatalabelFold] using
        ih (resolveDatalabelTable tables v cur) j hj

/-- Claim C5: when neither the primary-cased nor the alternate-cased
parameter table name is present for a version, the find_parameters loop
queries the value current_table carried over from the previous iteration
unchanged, and the loop never skips a version (one queried table per
version). -/
theorem claim_C5 :
    (∀ (tables : List String) (cur : String) (v : Nat) (vs : List Nat),
      primaryParamTable v ∉ tables → altParamTable v ∉ tables →
      paramQueryTablesAux tables cur (v :: vs) =
        cur :: paramQueryTablesAux tables cur vs)
    ∧ (∀ (tables : List String) (cur : String) (vs : List Nat),
      (paramQueryTablesAux tables cur vs).length = vs.length) := by
  constructor
  · intro tables cur v vs h1 h2
    simp [paramQueryTablesAux, resolveParamTable, h1, h2]
  · intro tables cur vs
    induction vs generalizing cur with
    | nil => rfl
    | cons v vs ih => simp [paramQueryTablesAux, ih]

/-- Claim C5, witness: version 2 has no parameter table in either casing, so
its query reuses the table resolved for version 1. -/
theorem claim_C5_witness :
    paramQueryTablesAux ["Parameterlijst_V1"] "Parameterlijst_V1" (2 :: []) =
      "Parameterlijst_V1" ::
        paramQueryTablesAux ["Parameterlijst_V1"] "Parameterlijst_V1" [] ∧
    (paramQueryTablesAux ["Parameterlijst_V1"] "" [1, 2]).length = 2 :=
  ⟨claim_C5.1 ["Parameterlijst_V1"] "Parameterlijst_V1" 2 [] (by decide) (by decide),
   claim_C5.2 ["Parameterlijst_V1"] "" [1, 2]⟩

/-- Claim C10: when the primary-cased datalabel table name is absent for a
version, the find_datalabels loop silently reuses the previously resolved
current_table; the queried name is still the empty unresolved marker (whose
query then fails) exactly when no version so far had its table present. -/
theorem claim_C10 :
    (∀ (tables : List String) (cur : String) (v : Nat) (vs : List Nat),
      datalabelTable v ∉ tables →
      datalabelQueryTablesAux tables cur (v :: vs) =
        cur :: datalabelQueryTablesAux tables cur vs)
    ∧ (∀ (tables : List String) (versions : List Nat) (i : Nat),
      i < versions.length →
      ((datalabelQueryTables tables versions).getD i "?" = "" ↔
        ∀ v ∈ versions.take (i + 1), datalabelTable v ∉ tables)) := by
  constructor
  · intro tables cur v vs hv
    simp [datalabelQueryTablesAux, resolveDatalabelTable, hv]
  · intro tables versions i h
    rw [datalabelQueryTables, datalabelQueryTablesAux_getD tables versions "" i h,
        resolveDatalabelFold_eq_empty]
    simp

/-- Claim C10, witness: carry-over of a resolved datalabel table, and the
empty marker persisting while no table matches. -/
theorem claim_C10_witness :
    datalabelQueryTablesAux ["Datalabel_V1"] "Datalabel_V1" (2 :: []) =
      "Datalabel_V1" :: datalabelQueryTablesAux ["Datalabel_V1"] "Datalabel_V1" [] ∧
    ((datalabelQueryTables ["OtherTable"] [1, 2]).getD 1 "?" = "" ↔
      ∀ v ∈ ([1, 2] : List Nat).take 2, datalabelTable v ∉ ["OtherTable"]) :=
  ⟨claim_C10.1 ["Datalabel_V1"] "Datalabel_V1" 2 [] (by decide),
   claim_C10.2 ["OtherTable"] [1, 2] 1 (by decide)⟩

/-- Claim C2, counterexample: with only the alternate-cased table present,
the loop resolves current_table to the primary-cased name (line 379 of the
source assigns the primary-cased string in the alternate branch), not to the
alternate-cased name the claim states. -/
theorem claim_C2_counterexample :
    resolveParamTable ["parameterlijst_V1"] 1 "" ≠ "parameterlijst_V1" ∧
    resolveParamTable ["parameterlijst_V1"] 1 "" = "Parameterlijst_V1" :=
  ⟨by decide, by decide⟩

/-- Lower casing distributes over string append. -/
theorem lowerStr_append (a b : String) :
    lowerStr (a ++ b) = lowerStr a ++ lowerStr b := by
  show String.mk (((a ++ b).data).map asciiLower) =
    String.mk ((a.data.map asciiLower) ++ (b.data.map asciiLower))
  rw [String.data_append, List.map_append]

/-- Claim C2, amended: with only the alternate-cased parameter table present,
the loader resolves current_table to the primary-cased name string; the
subsequent query nonetheless reads the existing alternate-cased table and
succeeds, because the store matches table identifiers case-insensitively. -/
theorem claim_C2_amended (tables : List String) (v : Nat) (cur : String)
    (store : List (String × List IthoParameter)) (rows : List IthoParameter)
    (h1 : primaryParamTable v ∉ tables) (h2 : altParamTable v ∈ tables)
    (h3 : store.find? (fun p => lowerStr p.fst == lowerStr (altParamTable v)) =
      some (altParamTable v, rows)) :
    resolveParamTable tables v cur = primaryParamTable v ∧
    queryOrdered (fun r => r.Index) store (resolveParamTable tables v cur) =
      .ok (rows.insertionSort (fun a b => a.Index ≤ b.Index)) := by
  have hres : resolveParamTable tables v cur = primaryParamTable v := by
    unfold resolveParamTable
    rw [if_neg h1, if_pos h2]
  refine ⟨hres, ?_⟩
  rw [hres]
  unfold queryOrdered
  have hlowP : lowerStr "Parameterlijst_V" = lowerStr "parameterlijst_V" := by decide
  have hlow : lowerStr (primaryParamTable v) = lowerStr (altParamTable v) := by
    unfold primaryParamTable altParamTable
    rw [lowerStr_append, lowerStr_append, hlowP]
  rw [show (fun p : String × List IthoParameter =>
      lowerStr p.fst == lowerStr (primaryParamTable v)) =
      (fun p : String × List IthoParameter =>
      lowerStr p.fst == lowerStr (altParamTable v)) from by
    funext p
    rw [hlow]]
  rw [h3]

/-- A store holding only the alternate-cased parameter table for version 1. -/
def storeC2 : List (String × List IthoParameter) :=
  [("parameterlijst_V1", [])]

/-- Claim C2, amended, witness. -/
theorem claim_C2_amended_witness :
    resolveParamTable ["parameterlijst_V1"] 1 "" = primaryParamTable 1 ∧
    queryOrdered (fun r => r.Index) storeC2
        (resolveParamTable ["parameterlijst_V1"] 1 "") =
      .ok (([] : List IthoParameter).insertionSort (fun a b => a.Index ≤ b.Index)) :=
  claim_C2_amended ["parameterlijst_V1"] 1 "" storeC2 []
    (by decide) (by decide) rfl

/-- Total order instance for the pulled-back Index comparison. -/
instance instKeyLeTotal {ρ : Type} (key : ρ → Int) :
    IsTotal ρ (fun a b => key a ≤ key b) :=
  ⟨fun a b => le_total (key a) (key b)⟩

/-- Transitivity instance for the pulled-back Index comparison. -/
instance instKeyLeTrans {ρ : Type} (key : ρ → Int) :
    IsTrans ρ (fun a b => key a ≤ key b) :=
  ⟨fun _ _ _ h1 h2 => le_trans h1 h2⟩

/-- The ordered query yields rows sorted ascending by the key; the key values
are strictly increasing (hence duplicate-free) whenever the stored rows of
the found table carry pairwise-distinct keys. -/
theorem queryOrdered_sorted {ρ : Type} (key : ρ → Int)
    (store : List (String × List ρ)) (name : String) (p : String × List ρ)
    (hf : store.find? (fun q => lowerStr q.fst == lowerStr name) = some p) :
    ∃ rows, queryOrdered key store name = .ok rows ∧
      rows.Pairwise (fun a b => key a ≤ key b) ∧
      ((p.snd.map key).Nodup → rows.Pairwise (fun a b => key a < key b)) := by
  refine ⟨p.snd.insertionSort (fun a b => key a ≤ key b), ?_, ?_, ?_⟩
  · unfold queryOrdered
    rw [hf]
  · exact List.sorted_insertionSort _ _
  · intro hnd
    have hperm : List.Perm (p.snd.insertionSort (fun a b => key a ≤ key b)) p.snd :=
      List.perm_insertionSort _ _
    have hnd2 : ((p.snd.insertionSort (fun a b => key a ≤ key b)).map key).Nodup :=
      ((hperm.map key).nodup_iff).mpr hnd
    have hne : (p.snd.insertionSort (fun a b => key a ≤ key b)).Pairwise
        (fun a b => key a ≠ key b) := List.pairwise_map.mp hnd2
    have hle : (p.snd.insertionSort (fun a b => key a ≤ key b)).Pairwise
        (fun a b => key a ≤ key b) := List.sorted_insertionSort _ _
    exact (hle.and hne).imp (fun h => lt_of_le_of_ne h.1 h.2)

/-- Claim C7, amended: for both the parameter and the datalabel loader, the
loaded sequence is sorted ascending by Index; the Index values are strictly
ascending (no duplicates) provided the stored rows of the queried table have
pairwise-distinct Index values — the loader itself never deduplicates. -/
theorem claim_C7_amended :
    (∀ (store : List (String × List IthoParameter)) (name : String)
        (p : String × List IthoParameter),
      store.find? (fun q => lowerStr q.fst == lowerStr name) = some p →
      ∃ rows, queryOrdered (fun r => r.Index) store name = .ok rows ∧
        rows.Pairwise (fun a b => a.Index ≤ b.Index) ∧
        ((p.snd.map (fun r => r.Index)).Nodup →
          rows.Pairwise (fun a b => a.Index < b.Index)))
    ∧ (∀ (store : List (String × List IthoDatalabel)) (name : String)
        (p : String × List IthoDatalabel),
      store.find? (fun q => lowerStr q.fst == lowerStr name) = some p →
      ∃ rows, queryOrdered (fun r => r.Index) store name = .ok rows ∧
        rows.Pairwise (fun a b => a.Index ≤ b.Index) ∧
        ((p.snd.map (fun r => r.Index)).Nodup →
          rows.Pairwise (fun a b => a.Index < b.Index))) :=
  ⟨fun store name p hf => queryOrdered_sorted (fun r => r.Index) store name p hf,
   fun store name p hf => queryOrdered_sorted (fun r => r.Index) store name p hf⟩

/-- A parameter row with the given index and name and empty payload. -/
def paramRow (ix : Int) (nm : String) : IthoParameter :=
  { Index := ix, Volgorde := 0, Naam := nm, Naam_fabriek := "", Min := 0.0,
    Max := 0.0, Default := 0.0, Tekst_NL := "", Omschrijving_NL := "",
    Eenheid_NL := "", Tekst_GB := "", Omschrijving_GB := "", Eenheid_GB := "",
    Tekst_D := "", Omschrijving_D := "", Eenheid_D := "", Subtabel := "",
    Paswoordnivo := 0 }

/-- A datalabel row with the given index and name and empty payload. -/
def dlRow (ix : Int) (nm : String) : IthoDatalabel :=
  { Index := ix, Naam := nm, Tekst_NL := "", Tooltip_NL := "", Eenheid_NL := "",
    Tekst_GB := "", Tooltip_GB := "", Eenheid_GB := none, Tekst_D := "",
    Tooltip_D := "", Eenheid_D := "", SubTabel := "", Visible := 1 }

/-- A parameter table holding two rows with the same Index. -/
def storeC7 : List (String × List IthoParameter) :=
  [("Parameterlijst_V1", [paramRow 1 "a", paramRow 1 "b"])]

/-- Claim C7, counterexample: a stored table with two rows of equal Index
loads as a sequence with a duplicate Index value; nothing in the loader
forbids or removes the duplicate. -/
theorem claim_C7_counterexample :
    ∃ rows, queryOrdered (fun r => r.Index) storeC7 "Parameterlijst_V1" =
        .ok rows ∧
      rows.map (fun r => r.Index) = [1, 1] ∧
      ¬ (rows.map (fun r => r.Index)).Nodup := by
  refine ⟨[paramRow 1 "a", paramRow 1 "b"], rfl, rfl, by decide⟩

/-- A parameter table with distinct, unsorted indices. -/
def storeC7p : List (String × List IthoParameter) :=
  [("Parameterlijst_V1", [paramRow 2 "a", paramRow 1 "b"])]

/-- A datalabel table with distinct, unsorted indices. -/
def storeC7d : List (String × List IthoDatalabel) :=
  [("Datalabel_V1", [dlRow 5 "x", dlRow 3 "y"])]

/-- Claim C7, amended, witness on both loaders. -/
theorem claim_C7_amended_witness :
    (∃ rows, queryOrdered (fun r => r.Index) storeC7p "Parameterlijst_V1" =
        .ok rows ∧
      rows.Pairwise (fun a b => a.Index ≤ b.Index) ∧
      rows.Pairwise (fun a b => a.Index < b.Index)) ∧
    (∃ rows, queryOrdered (fun r => r.Index) storeC7d "Datalabel_V1" =
        .ok rows ∧
      rows.Pairwise (fun a b => a.Index ≤ b.Index) ∧
      rows.Pairwise (fun a b => a.Index < b.Index)) := by
  constructor
  · obtain ⟨rows, h1, h2, h3⟩ := claim_C7_amended.1 storeC7p "Parameterlijst_V1"
      ("Parameterlijst_V1", [paramRow 2 "a", paramRow 1 "b"]) rfl
    exact ⟨rows, h1, h2, h3 (by decide)⟩
  · obtain ⟨rows, h1, h2, h3⟩ := claim_C7_amended.2 storeC7d "Datalabel_V1"
      ("Datalabel_V1", [dlRow 5 "x", dlRow 3 "y"]) rfl
    exact ⟨rows, h1, h2, h3 (by decide)⟩

/-- Every successfully parsed version suffix is bounded by the running
maximum computed by find_versions. -/
theorem maxVersion_le (l : List String) : ∀ (M : Nat), maxVersion l = some M →
    ∀ t ∈ l, ∀ v, tableVersion t = some v → v ≤ M := by
  induction l with
  | nil =>
    intro M _ t ht
    simp at ht
  | cons t0 ts ih =>
    intro M h t ht v hv
    unfold maxVersion at h
    cases h1 : tableVersion t0 with
    | none =>
      rw [h1] at h
      cases h2 : maxVersion ts with
      | none => rw [h2] at h; simp at h
      | some m => rw [h2] at h; simp at h
    | some v0 =>
      rw [h1] at h
      cases h2 : maxVersion ts with
      | none => rw [h2] at h; simp at h
      | some m =>
        rw [h2] at h
        injection h with h
        subst h
        rcases List.mem_cons.mp ht with rfl | hmem
        · rw [h1] at hv
          injection hv with hv
          subst hv
          exact Nat.le_max_left _ _
        · exact le_trans (ih m h2 t hmem v hv) (Nat.le_max_right _ _)

/-- The running maximum of find_versions is zero or is realized by some
candidate table. -/
theorem maxVersion_mem (l : List String) : ∀ (M : Nat), maxVersion l = some M →
    M = 0 ∨ ∃ t ∈ l, tableVersion t = some M := by
  induction l with
  | nil =>
    intro M h
    unfold maxVersion at h
    injection h with h
    exact Or.inl h.symm
  | cons t0 ts ih =>
    intro M h
    unfold maxVersion at h
    cases h1 : tableVersion t0 with
    | none =>
      rw [h1] at h
      cases h2 : maxVersion ts with
      | none => rw [h2] at h; simp at h
      | some m => rw [h2] at h; simp at h
    | some v0 =>
      rw [h1] at h
      cases h2 : maxVersion ts with
      | none => rw [h2] at h; simp at h
      | some m =>
        rw [h2] at h
        injection h with h
        subst h
        rcases Nat.le_total v0 m with hle | hle
        · have hmax : max v0 m = m := Nat.max_eq_right hle
          rw [hmax]
          rcases ih m h2 with h0 | ⟨t, htmem, htv⟩
          · exact Or.inl h0
          · exact Or.inr ⟨t, List.mem_cons_of_mem _ htmem, htv⟩
        · have hmax : max v0 m = v0 := Nat.max_eq_left hle
          rw [hmax]
          exact Or.inr ⟨t0, List.mem_cons_self _ _, h1⟩

/-- The enumerated range is strictly ascending. -/
theorem pairwise_lt_range1 : ∀ (n s : Nat),
    (List.range' s n).Pairwise (fun a b => a < b) := by
  intro n
  induction n with
  | zero =>
    intro s
    simp
  | succ m ih =>
    intro s
    rw [List.range'_succ]
    refine List.Pairwise.cons ?_ (ih (s + 1))
    intro b hb
    rw [List.mem_range'] at hb
    obtain ⟨i, hi, rfl⟩ := hb
    omega

/-- Claim C4: a successful find_versions yields exactly the contiguous range
from 1 to the maximum parsed 1-2 digit suffix after the last _V separator
among version-tagged table names: strictly ascending, duplicate-free,
gap-free from 1 up to a realized maximum, and empty when there is no
candidate table. -/
theorem claim_C4 (tables : List String) (vs : List Nat)
    (h : find_versions tables = some vs) :
    ∃ M, vs = List.range' 1 M ∧
      vs.Pairwise (fun a b => a < b) ∧
      (∀ i : Nat, i ∈ vs ↔ 1 ≤ i ∧ i ≤ M) ∧
      (∀ t ∈ tables.filter versionMatch, ∀ v, tableVersion t = some v → v ≤ M) ∧
      (M = 0 ∨ ∃ t ∈ tables.filter versionMatch, tableVersion t = some M) ∧
      (tables.filter versionMatch = [] → vs = []) := by
  unfold find_versions at h
  cases hM : maxVersion (tables.filter versionMatch) with
  | none => rw [hM] at h; simp at h
  | some M =>
    rw [hM] at h
    injection h with h
    subst h
    refine ⟨M, rfl, pairwise_lt_range1 M 1, ?_,
      maxVersion_le _ M hM, maxVersion_mem _ M hM, ?_⟩
    · intro i
      rw [List.mem_range']
      constructor
      · rintro ⟨j, hj, rfl⟩
        omega
      · rintro ⟨h1, h2⟩
        exact ⟨i - 1, by omega, by omega⟩
    · intro hnil
      rw [hnil] at hM
      have h0 : (some 0 : Option Nat) = some M := hM
      injection h0 with h0
      subst h0
      rfl

/-- Claim C4, witness on a table list with version-tagged and untagged names. -/
theorem claim_C4_witness :
    ∃ M, ([1, 2] : List Nat) = List.range' 1 M ∧
      ([1, 2] : List Nat).Pairwise (fun a b => a < b) ∧
      (∀ i : Nat, i ∈ ([1, 2] : List Nat) ↔ 1 ≤ i ∧ i ≤ M) ∧
      (∀ t ∈ ["Parameterlijst_V2", "Datalabel_V1", "Foo"].filter versionMatch,
        ∀ v, tableVersion t = some v → v ≤ M) ∧
      (M = 0 ∨ ∃ t ∈ ["Parameterlijst_V2", "Datalabel_V1", "Foo"].filter versionMatch,
        tableVersion t = some M) ∧
      (["Parameterlijst_V2", "Datalabel_V1", "Foo"].filter versionMatch = [] →
        ([1, 2] : List Nat) = []) :=
  claim_C4 ["Parameterlijst_V2", "Datalabel_V1", "Foo"] [1, 2] rfl

/-- A successful sensor-building loop produces one output per input in input
order. -/
theorem buildSensors_ok {α β : Type} (f : α → Except String β) :
    ∀ (l : List α) (ys : List β), buildSensors f l = .ok ys →
      ys.length = l.length ∧
      ∀ (i : Nat) (hi : i < l.length) (hy : i < ys.length),
        f (l.get ⟨i, hi⟩) = .ok (ys.get ⟨i, hy⟩) := by
  intro l
  induction l with
  | nil =>
    intro ys h
    unfold buildSensors at h
    injection h with h
    subst h
    refine ⟨rfl, ?_⟩
    intro i hi hy
    simp at hi
  | cons x xs ih =>
    intro ys h
    unfold buildSensors at h
    revert h
    cases hfx : f x with
    | error e =>
      intro h
      simp at h
    | ok y =>
      cases hbx : buildSensors f xs with
      | error e =>
        intro h
        simp at h
      | ok ys0 =>
        intro h
        injection h with h
        subst h
        obtain ⟨hlen, hidx⟩ := ih ys0 hbx
        refine ⟨by simp [hlen], ?_⟩
        intro i hi hy
        cases i with
        | zero => exact hfx
        | succ j =>
          have hj : j < xs.length := by simpa using hi
          have hjy : j < ys0.length := by simpa using hy
          exact hidx j hj hjy

/-- Claim C9: requesting sensors for a version outside the discovered
sequence yields the unknown-version error whose message embeds the requested
version (never a partial or empty result); for a discovered version, a
successful call returns exactly one descriptor per datalabel of that
version, in loaded order. -/
theorem claim_C9 (units : SensorDeviceClass → List (Option String))
    (stateCls : SensorDeviceClass → List SensorStateClass)
    (versions : List Nat) (datalabels : Nat → List IthoDatalabel)
    (version : Nat) :
    (version ∉ versions →
      get_ha_sensors units stateCls versions datalabels version =
        .error ("Firmware version: " ++ toString version ++ " not found") ∧
      ∃ pre post, "Firmware version: " ++ toString version ++ " not found" =
        pre ++ toString version ++ post)
    ∧ (version ∈ versions → ∀ sensors,
      get_ha_sensors units stateCls versions datalabels version = .ok sensors →
      sensors.length = (datalabels version).length ∧
      ∀ (i : Nat) (hd : i < (datalabels version).length) (hs : i < sensors.length),
        mkSensorOfDatalabel units stateCls ((datalabels version).get ⟨i, hd⟩) =
          .ok (sensors.get ⟨i, hs⟩)) := by
  constructor
  · intro hnot
    constructor
    · unfold get_ha_sensors
      rw [if_neg hnot]
    · exact ⟨"Firmware version: ", " not found", rfl⟩
  · intro hmem sensors h
    unfold get_ha_sensors at h
    rw [if_pos hmem] at h
    exact buildSensors_ok _ _ _ h

/-- A two-datalabel catalog for every version. -/
def dlTwo : Nat → List IthoDatalabel :=
  fun _ => [dlRow 1 "x", dlRow 2 "y"]

/-- The sensor produced from a dlRow datalabel (empty GB text and tooltip, no
GB unit). -/
def sensC9 : HAMQTTSensor :=
  { name := ""
    unique_id := "itho_432432_"
    availability_topic := "itho_wtw/lwt"
    payload_available := "online"
    payload_not_available := "offline"
    state_topic := "itho_wtw/ithostatus"
    value_template := "\x7b\x7b value_json[\" (None)\"] \x7d\x7d"
    device_class := none
    state_class := none
    unit_of_measurement := none
    fixed_unit_of_measurement := none }

/-- Claim C9, witness: version 2 is not discovered and errors with its
identifier in the message; version 1 yields one sensor per datalabel in
order. -/
theorem claim_C9_witness :
    (get_ha_sensors unitsW stateClsW [1] dlTwo 2 =
        .error ("Firmware version: " ++ toString 2 ++ " not found") ∧
      ∃ pre post, "Firmware version: " ++ toString 2 ++ " not found" =
        pre ++ toString 2 ++ post) ∧
    (([sensC9, sensC9] : List HAMQTTSensor).length = (dlTwo 1).length ∧
      ∀ (i : Nat) (hd : i < (dlTwo 1).length)
        (hs : i < ([sensC9, sensC9] : List HAMQTTSensor).length),
        mkSensorOfDatalabel unitsW stateClsW ((dlTwo 1).get ⟨i, hd⟩) =
          .ok (([sensC9, sensC9] : List HAMQTTSensor).get ⟨i, hs⟩)) :=
  ⟨(claim_C9 unitsW stateClsW [1] dlTwo 2).1 (by decide),
   (claim_C9 unitsW stateClsW [1] dlTwo 1).2 (by decide) [sensC9, sensC9] rfl⟩

end Itho
